import Mathlib

/-!
Shallow embedding of the communication engine of the Prusa Connect printer
SDK (`prusa/connect/printer/__init__.py`): the `Printer` object, its queue
producers (`event_cb`, `telemetry`), the write-once identity setters, the
response parser `parse_command`, and one iteration of the dispatch `loop`.

Modules `models`, `command`, `errors`, `const` and `download` are imported
by the code but their sources are not part of this snapshot; where a claim
depends on them they are modelled from the specification (each such
definition says so in its doc comment).  Everything else is translated
directly from `__init__.py`.
-/

namespace PrusaConnect

/-- A scalar/structured value carried in the open keyword-argument fields of
events and telemetry samples.  Floating point quantities (e.g. download
progress) are carried opaquely via the `f` constructor with a numeric tag:
no claim computes with them, the code only copies them around. -/
inductive PVal where
  | null : PVal
  | b : Bool → PVal
  | i : Int → PVal
  | s : String → PVal
  | f : Int → PVal
  deriving DecidableEq, Repr

/-- Event kinds used by `__init__.py` (`const.Event`; the enum in
`types.py` plus `DOWNLOAD_INFO`, which the code references). -/
inductive EventKind where
  | ACCEPTED | REJECTED | FINISHED | INFO | STATE_CHANGED
  | MEDIUM_EJECTED | MEDIUM_INSERTED | FILE_CHANGED | FILE_INFO
  | DOWNLOAD_INFO
  deriving DecidableEq, Repr

/-- Event sources (`const.Source`, as listed in `types.py`). -/
inductive Source where
  | CONNECT | GUI | WUI | SERIAL | GCODE | MARLIN | FIRMWARE | HW
  deriving DecidableEq, Repr

/-- Printer states (`const.State`, as listed in `types.py`). -/
inductive PState where
  | READY | BUSY | PRINTING | PAUSED | FINISHED | ERROR | ATTENTION
  | PREPARED
  deriving DecidableEq, Repr

/-- Printer types (`const.PrinterType`).  The source of `const` is not in
the snapshot; the claims only need the field to be an optional value, so
two representative constructors suffice. -/
inductive PrinterType where
  | I3MK3 | SL1
  deriving DecidableEq, Repr

/-- Modelled from the spec: an Event message
(`models.Event` is not in the snapshot) — kind, source, optional
timestamp, optional command id, and open named extra fields, exactly the
arguments `Printer.event_cb` passes to the constructor. -/
structure Event where
  event : EventKind
  source : Source
  timestamp : Option Int
  command_id : Option Int
  kwargs : List (String × PVal)
  deriving DecidableEq, Repr

/-- Modelled from the spec: a Telemetry sample
(`models.Telemetry` is not in the snapshot) — state, optional timestamp
and open named extra fields, exactly the arguments `Printer.telemetry`
passes to the constructor. -/
structure Telemetry where
  state : PState
  timestamp : Option Int
  kwargs : List (String × PVal)
  deriving DecidableEq, Repr

/-- `CODE_TIMEOUT = 60 * 30  # 30 min` -/
def CODE_TIMEOUT : Int := 60 * 30

/-- `class Register`: item for the get_token action; `self.timeout =
int(time()) + CODE_TIMEOUT`.  `Register.make` performs the constructor's
timeout computation from the creation time `now`. -/
structure Register where
  code : String
  timeout : Int
  deriving DecidableEq, Repr

def Register.make (code : String) (now : Int) : Register :=
  { code := code, timeout := now + CODE_TIMEOUT }

/-- The queue holds `Union[Event, Telemetry, Register]`. -/
inductive QueueItem where
  | ev : Event → QueueItem
  | tel : Telemetry → QueueItem
  | reg : Register → QueueItem
  deriving DecidableEq, Repr

/-- Modelled from the spec: the health registry (`errors.py` is not in the
snapshot).  Four independently-settable boolean flags; `HTTP` is the
transport/connectivity flag (spec name TRANSPORT). -/
structure Errors where
  http : Bool
  api : Bool
  token : Bool
  internet : Bool
  deriving DecidableEq, Repr

/-- Modelled from the spec: the per-telemetry snapshot of
`download_mgr.current` (`download.py` is not in the snapshot).
`Printer.telemetry` only copies these three attributes into the sample's
keyword fields, so they are carried as opaque values. -/
structure DownloadSnapshot where
  progress : PVal
  time_remaining : PVal
  downloaded : PVal
  deriving DecidableEq, Repr

/-- The state of a `Printer` object: the fields of `__init__.py` that the
communication engine reads or writes.  `command_in_flight` is the single
command slot of `command.Command`, modelled from the spec
(`command.py` is not in the snapshot): `None` or the in-flight id. -/
structure Printer where
  server : Option String
  token : Option String
  sn : Option String
  fingerprint : Option String
  type_ : Option PrinterType
  job_id : Option Int
  queue : List QueueItem
  errs : Errors
  command_in_flight : Option Int
  download_current : Option DownloadSnapshot
  deriving DecidableEq, Repr

/-- `NOT_INITIALISED_MSG = "Printer has not been initialized properly"` -/
def NOT_INITIALISED_MSG : String := "Printer has not been initialized properly"

/-- Python truthiness of an optional string: `None` and `""` are falsy. -/
def truthyStr : Option String → Bool
  | none => false
  | some s => s ≠ ""

/-- `Printer.is_initialised`: returns
`bool(self.__sn and self.__fingerprint and self.__type is not None)` and,
when that is false, performs `errors.API.ok = False` as a side effect.
Returned as (result, updated printer). -/
def Printer.is_initialised (p : Printer) : Bool × Printer :=
  let initialised := truthyStr p.sn && truthyStr p.fingerprint
      && p.type_.isSome
  if initialised then (true, p)
  else (false, { p with errs := { p.errs with api := false } })

/-- `fingerprint.setter`: raise `RuntimeError("Fingerprint is already
set.")` when the field is not `None`, else store the value. -/
def Printer.set_fingerprint (p : Printer) (value : String) :
    Except String Printer :=
  if p.fingerprint.isSome then .error "Fingerprint is already set."
  else .ok { p with fingerprint := some value }

/-- `sn.setter`: raise `RuntimeError("Serial number is already set.")`
when the field is not `None`, else store the value. -/
def Printer.set_sn (p : Printer) (value : String) : Except String Printer :=
  if p.sn.isSome then .error "Serial number is already set."
  else .ok { p with sn := some value }

/-- `type.setter`: raise `RuntimeError("Printer type is already set.")`
when the field is not `None`, else store the value. -/
def Printer.set_type (p : Printer) (value : PrinterType) :
    Except String Printer :=
  if p.type_.isSome then .error "Printer type is already set."
  else .ok { p with type_ := some value }

/-- `Printer.event_cb`: skip when no token; add `job_id` to the kwargs
when set; build the Event; call `is_initialised` (whose API-flag side
effect is kept); enqueue. -/
def Printer.event_cb (p : Printer) (event : EventKind) (source : Source)
    (timestamp : Option Int) (command_id : Option Int)
    (kwargs : List (String × PVal)) : Printer :=
  if p.token.isNone then p
  else
    let kwargs := match p.job_id with
      | some j => kwargs ++ [("job_id", PVal.i j)]
      | none => kwargs
    let e : Event := { event := event, source := source,
                       timestamp := timestamp, command_id := command_id,
                       kwargs := kwargs }
    let p := (p.is_initialised).2
    { p with queue := p.queue ++ [QueueItem.ev e] }

/-- `Printer.telemetry`: skip when no token; add `job_id` and the three
download fields to the kwargs; when initialised enqueue
`Telemetry(state, timestamp, **kwargs)`, otherwise enqueue
`Telemetry(state, timestamp)` with no extra fields (the `is_initialised`
API-flag side effect is kept). -/
def Printer.telemetry (p : Printer) (state : PState)
    (timestamp : Option Int) (kwargs : List (String × PVal)) : Printer :=
  if p.token.isNone then p
  else
    let kwargs := match p.job_id with
      | some j => kwargs ++ [("job_id", PVal.i j)]
      | none => kwargs
    let kwargs := match p.download_current with
      | some d => kwargs ++ [("download_progress", d.progress),
                  ("download_time_remaining", d.time_remaining),
                  ("download_bytes", d.downloaded)]
      | none => kwargs
    let (ini, p) := p.is_initialised
    let t : Telemetry :=
      if ini then { state := state, timestamp := timestamp, kwargs := kwargs }
      else { state := state, timestamp := timestamp, kwargs := [] }
    { p with queue := p.queue ++ [QueueItem.tel t] }

/-- The decoded JSON body of a command response: `res.json()` read via
`data.get("command", "")`, `data.get("args")`, `data.get("kwargs")`. -/
structure JsonCmd where
  command : Option String
  args : Option (List PVal)
  kwargs : Option (List (String × PVal))
  deriving DecidableEq, Repr

/-- An HTTP response as `loop`/`parse_command` reads it: status code, the
headers the code looks at, the body text, and the body's JSON decoding
(`body_json = none` models `res.json()` raising).  A value of this type
stands for a completed exchange; connection-level failures take the
loop's exception paths and are outside the modelled fragment. -/
structure Response where
  status_code : Nat
  command_id_header : Option String
  content_type : Option String
  force_header : Option String
  token_header : Option String
  text : String
  body_json : Option JsonCmd
  deriving DecidableEq, Repr

/-- `s.startswith(pre)`, executably: prefix test on the character
lists. -/
def strStartsWith (s pre : String) : Bool := pre.data.isPrefixOf s.data

/-- Decimal digits to a number, requiring at least one digit and nothing
but digits. -/
def digitsToNat : List Char → Nat → Option Nat
  | [], _ => none
  | [c], acc => if c.isDigit then some (acc * 10 + (c.toNat - 48)) else none
  | c :: rest, acc =>
    if c.isDigit then digitsToNat rest (acc * 10 + (c.toNat - 48)) else none

/-- Python `int(s)` on a string: an optional sign followed by decimal
digits (the fringe the code never receives — surrounding whitespace,
underscore separators — is not modelled). -/
def pyInt? (s : String) : Option Int :=
  match s.data with
  | '-' :: rest => (digitsToNat rest 0).map (fun n => -(n : Int))
  | '+' :: rest => (digitsToNat rest 0).map (fun n => (n : Int))
  | l => (digitsToNat l 0).map (fun n => (n : Int))

/-- `int(res.headers.get("Command-Id"))`: `None` raises `TypeError`, a
non-integer string raises `ValueError`; both yield `none`. -/
def parseCommandId : Option String → Option Int
  | none => none
  | some s => pyInt? s

/-- Modelled from the spec: `command.Command.check_state(id)`
(`command.py` is not in the snapshot) — true if no command is in flight
or `id` equals the in-flight id; false for a different in-flight id. -/
def Printer.check_state (p : Printer) (command_id : Int) : Bool :=
  match p.command_in_flight with
  | none => true
  | some c => c == command_id

/-- One call to `command.Command.accept`, recorded observationally: the
positional and keyword arguments `parse_command` passes it
(`command.py` is not in the snapshot; the spec says `accept` runs the
handler synchronously and frees the slot, which the claims do not
inspect). -/
structure AcceptCall where
  command_id : Int
  command : String
  args : Option (List PVal)
  kwargs : Option (List (String × PVal))
  force : Bool
  deriving DecidableEq, Repr

/-- Stand-in message of the `AttributeError` raised by
`content_type.startswith(...)` when the content-type header is absent
(`content_type` is `None`); caught by the broad `except` and reported as
the rejection reason. -/
def NO_CONTENT_TYPE_MSG : String := "NoneType has no attribute startswith"

/-- Stand-in message of the decode error raised by `res.json()` on an
unparseable body; caught by the broad `except` and reported as the
rejection reason. -/
def JSON_DECODE_MSG : String := "JSON decode error"

/-- `Printer.parse_command`: on status 200 require a valid integer
`Command-Id` (else REJECTED, stop), require initialised identity (else
REJECTED with the fixed message, stop), then dispatch on content type:
`application/json` prefix decodes the body and accepts when `check_state`
passes; exact `text/x.gcode` accepts the body text as one GCODE argument
with `force` from the `Force: 1` header; anything else raises
`ValueError("Invalid command content type")`, caught and reported as
REJECTED.  204 and other statuses are no-ops.  Returns the new printer
state and the list of `accept` calls made. -/
def Printer.parse_command (p : Printer) (res : Response) :
    Printer × List AcceptCall :=
  if res.status_code == 200 then
    match parseCommandId res.command_id_header with
    | none =>
      (p.event_cb .REJECTED .CONNECT none none
        [("reason", PVal.s "Invalid Command-Id header")], [])
    | some command_id =>
      let (ini, p) := p.is_initialised
      if !ini then
        (p.event_cb .REJECTED .WUI none (some command_id)
          [("reason", PVal.s NOT_INITIALISED_MSG)], [])
      else
        match res.content_type with
        | none =>
          (p.event_cb .REJECTED .CONNECT none (some command_id)
            [("reason", PVal.s NO_CONTENT_TYPE_MSG)], [])
        | some ct =>
          if strStartsWith ct "application/json" then
            match res.body_json with
            | none =>
              (p.event_cb .REJECTED .CONNECT none (some command_id)
                [("reason", PVal.s JSON_DECODE_MSG)], [])
            | some data =>
              if p.check_state command_id then
                (p, [{ command_id := command_id,
                       command := data.command.getD "",
                       args := data.args, kwargs := data.kwargs,
                       force := false }])
              else (p, [])
          else if ct == "text/x.gcode" then
            if p.check_state command_id then
              let force := res.force_header == some "1"
              (p, [{ command_id := command_id, command := "GCODE",
                     args := some [PVal.s res.text], kwargs := none,
                     force := force }])
            else (p, [])
          else
            (p.event_cb .REJECTED .CONNECT none (some command_id)
              [("reason", PVal.s "Invalid command content type")], [])
  else (p, [])

/-- An HTTP call the loop performs: method and URL. -/
inductive HttpCall where
  | post : String → HttpCall
  | get : String → HttpCall
  deriving DecidableEq, Repr

/-- The status-code block run after every completed exchange in `loop`:
`errors.API.ok = True`; if status ≥ 400 then `errors.API.ok = False` and,
if status = 401, `errors.TOKEN.ok = False`. -/
def applyStatusFlags (p : Printer) (status : Nat) : Printer :=
  let e := { p.errs with api := true }
  let e :=
    if status ≥ 400 then
      { e with api := false,
               token := if status == 401 then false else e.token }
    else e
  { p with errs := e }

/-- One iteration of `Printer.loop` that pops an item, with `now` the
value of `time()` at the 202-timeout comparison and `res` the response
the oracle returns for whatever single HTTP call the iteration performs.
Returns the new printer state, the HTTP calls made, and the `accept`
calls made.  An empty queue is the `Empty` timeout: nothing changes. -/
def Printer.loopStep (p : Printer) (now : Int) (res : Response) :
    Printer × List HttpCall × List AcceptCall :=
  match p.queue with
  | [] => (p, [], [])
  | item :: rest =>
    let p := { p with queue := rest }
    match p.server with
    | none => (p, [], [])
    | some server =>
      match item with
      | .tel _ =>
        if p.token.isSome then
          let call := HttpCall.post (server ++ "/p/telemetry")
          let (p, accepts) := p.parse_command res
          (applyStatusFlags p res.status_code, [call], accepts)
        else (p, [], [])
      | .ev _ =>
        if p.token.isSome then
          let call := HttpCall.post (server ++ "/p/events")
          (applyStatusFlags p res.status_code, [call], [])
        else (p, [], [])
      | .reg r =>
        let call := HttpCall.get (server ++ "/p/register")
        if res.status_code == 200 then
          match res.token_header with
          | some tok =>
            let p := { p with
                       token := some tok,
                       errs := { p.errs with token := true } }
            (applyStatusFlags p res.status_code, [call], [])
          | none =>
            ({ p with errs := { p.errs with internet := false } },
             [call], [])
        else
          let p :=
            if res.status_code == 202 && r.timeout > now then
              { p with queue := p.queue ++ [QueueItem.reg r] }
            else p
          (applyStatusFlags p res.status_code, [call], [])

/-! ## Helper lemmas and concrete fixtures -/

/-- All-healthy flag registry. -/
def errsOK : Errors := { http := true, api := true, token := true, internet := true }

/-- A fully configured, initialised printer with an empty queue. -/
def pBase : Printer :=
  { server := some "http://srv", token := some "tok", sn := some "SN1",
    fingerprint := some "FP1", type_ := some .I3MK3, job_id := none,
    queue := [], errs := errsOK, command_in_flight := none,
    download_current := none }

/-- A plain 202 response with no headers of interest. -/
def res202 : Response :=
  { status_code := 202, command_id_header := none, content_type := none,
    force_header := none, token_header := none, text := "",
    body_json := none }

/-- A 200 response carrying command 7 as JSON. -/
def res200json : Response :=
  { status_code := 200, command_id_header := some "7",
    content_type := some "application/json", force_header := none,
    token_header := none, text := "{}",
    body_json := some { command := some "SEND_INFO", args := none,
                        kwargs := none } }

/-- Sample plain event and telemetry queue items. -/
def e0 : Event :=
  { event := .INFO, source := .CONNECT, timestamp := none,
    command_id := none, kwargs := [] }

def t0 : Telemetry := { state := .READY, timestamp := none, kwargs := [] }

def r0 : Register := { code := "tmpcode", timeout := 1000 }

theorem is_initialised_of_fst_true {p : Printer}
    (h : (p.is_initialised).1 = true) : p.is_initialised = (true, p) := by
  unfold Printer.is_initialised at *
  by_cases hc : (truthyStr p.sn && truthyStr p.fingerprint
      && p.type_.isSome) = true
  · simp [hc]
  · simp [hc] at h

theorem is_initialised_of_fst_false {p : Printer}
    (h : (p.is_initialised).1 = false) :
    p.is_initialised = (false, { p with errs := { p.errs with api := false } }) := by
  unfold Printer.is_initialised at *
  by_cases hc : (truthyStr p.sn && truthyStr p.fingerprint
      && p.type_.isSome) = true
  · simp [hc] at h
  · simp [hc]

/-- `is_initialised` only ever touches the error flags. -/
theorem is_initialised_snd_queue (p : Printer) :
    (p.is_initialised).2.queue = p.queue := by
  unfold Printer.is_initialised
  by_cases hc : (truthyStr p.sn && truthyStr p.fingerprint
      && p.type_.isSome) = true
  · simp [hc]
  · simp [hc]

theorem is_initialised_snd_token (p : Printer) :
    (p.is_initialised).2.token = p.token := by
  unfold Printer.is_initialised
  by_cases hc : (truthyStr p.sn && truthyStr p.fingerprint
      && p.type_.isSome) = true
  · simp [hc]
  · simp [hc]

/-- With a token set, `event_cb` appends exactly one event of the given
kind/source/timestamp/command id to the queue, whose kwargs extend the
ones passed in. -/
theorem event_cb_queue_shape (p : Printer) (tk : String)
    (htok : p.token = some tk) (ev : EventKind) (src : Source)
    (ts : Option Int) (cid : Option Int) (kw : List (String × PVal)) :
    ∃ kw2, (p.event_cb ev src ts cid kw).queue
        = p.queue ++ [QueueItem.ev { event := ev, source := src,
                                     timestamp := ts, command_id := cid,
                                     kwargs := kw2 }] ∧
      ∀ x ∈ kw, x ∈ kw2 := by
  unfold Printer.event_cb
  rw [htok]
  cases hj : p.job_id with
  | none =>
    refine ⟨kw, ?_, fun x hx => hx⟩
    simp [hj, is_initialised_snd_queue]
  | some j =>
    refine ⟨kw ++ [("job_id", PVal.i j)], ?_, fun x hx => by simp [hx]⟩
    simp [hj, is_initialised_snd_queue]

/-! ## Claims -/

/-- Claim C6: each identity field (serial number, fingerprint, printer
type) is write-once — setting it while already set raises a
`RuntimeError` (the raise produces no new state, so the stored value is
unchanged), and setting it while `None` stores the new value, touching
nothing else. -/
theorem identity_fields_write_once (p : Printer) (v : String)
    (ty : PrinterType) :
    (p.fingerprint.isSome → Printer.set_fingerprint p v
      = Except.error "Fingerprint is already set.") ∧
    (p.fingerprint = none → Printer.set_fingerprint p v
      = Except.ok { p with fingerprint := some v }) ∧
    (p.sn.isSome → Printer.set_sn p v
      = Except.error "Serial number is already set.") ∧
    (p.sn = none → Printer.set_sn p v
      = Except.ok { p with sn := some v }) ∧
    (p.type_.isSome → Printer.set_type p ty
      = Except.error "Printer type is already set.") ∧
    (p.type_ = none → Printer.set_type p ty
      = Except.ok { p with type_ := some ty }) := by
  refine ⟨fun h => ?_, fun h => ?_, fun h => ?_, fun h => ?_,
          fun h => ?_, fun h => ?_⟩ <;>
    simp [Printer.set_fingerprint, Printer.set_sn, Printer.set_type, h]

/-- Witness for C6 at a concrete printer: fingerprint already set is
refused, serial number absent is stored. -/
theorem identity_fields_write_once_witness :
    Printer.set_fingerprint { pBase with sn := none } "x"
        = Except.error "Fingerprint is already set." ∧
    Printer.set_sn { pBase with sn := none } "SN2"
        = Except.ok { pBase with sn := some "SN2" } := by
  have h := identity_fields_write_once { pBase with sn := none } "x" .SL1
  have h2 := identity_fields_write_once { pBase with sn := none } "SN2" .SL1
  exact ⟨h.1 rfl, h2.2.2.2.1 rfl⟩

/-- Claim C8: with no server configured, the loop pops the head item and
drops it silently — no HTTP call, no re-enqueue, no event emitted,
nothing else changed — whatever kind of item it is. -/
theorem no_server_drops_item (p : Printer) (now : Int) (res : Response)
    (item : QueueItem) (rest : List QueueItem)
    (hq : p.queue = item :: rest) (hs : p.server = none) :
    p.loopStep now res = ({ p with queue := rest }, [], []) := by
  unfold Printer.loopStep
  rw [hq]
  simp [hs]

/-- Witness for C8 at concrete printers: one per item kind. -/
theorem no_server_drops_item_witness :
    ({ pBase with
       server := none,
       queue := [QueueItem.ev e0] } : Printer).loopStep 0 res202
      = ({ pBase with server := none, queue := [] }, [], []) ∧
    ({ pBase with
       server := none,
       queue := [QueueItem.tel t0] } : Printer).loopStep 0 res202
      = ({ pBase with server := none, queue := [] }, [], []) ∧
    ({ pBase with
       server := none,
       queue := [QueueItem.reg r0] } : Printer).loopStep 0 res202
      = ({ pBase with server := none, queue := [] }, [], []) := by
  refine ⟨?_, ?_, ?_⟩ <;>
    exact no_server_drops_item _ 0 res202 _ [] rfl rfl

/-- Claim C9: `is_initialised` is not a pure query — whenever an identity
field is missing (or, for the two string fields, empty: Python
truthiness), it returns `False` and additionally sets the API health
flag to false, changing nothing else; when all three are present it
returns `True` and leaves the whole state, flag included, unchanged. -/
theorem is_initialised_frame_effect (p : Printer) :
    (truthyStr p.sn = false ∨ truthyStr p.fingerprint = false
        ∨ p.type_ = none →
      p.is_initialised
        = (false, { p with errs := { p.errs with api := false } })) ∧
    (truthyStr p.sn = true → truthyStr p.fingerprint = true →
      p.type_.isSome → p.is_initialised = (true, p)) := by
  constructor
  · intro h
    apply is_initialised_of_fst_false
    unfold Printer.is_initialised
    rcases h with h | h | h <;> simp [h]
  · intro h1 h2 h3
    apply is_initialised_of_fst_true
    unfold Printer.is_initialised
    simp [h1, h2, h3]

/-- Witness for C9 at concrete printers: a missing serial number sets the
API flag false; a fully initialised printer is untouched. -/
theorem is_initialised_frame_effect_witness :
    ({ pBase with sn := none } : Printer).is_initialised
        = (false, { pBase with
                    sn := none,
                    errs := { errsOK with api := false } }) ∧
    pBase.is_initialised = (true, pBase) := by
  constructor
  · exact (is_initialised_frame_effect { pBase with sn := none }).1
      (Or.inl rfl)
  · exact (is_initialised_frame_effect pBase).2 rfl rfl rfl

/-- Claim C10: `telemetry` called with a token set but the printer not
initialised still enqueues a sample, but one carrying only the state and
timestamp: the caller's kwargs, the `job_id` and the download-progress
fields are all dropped. -/
theorem telemetry_uninitialised_drops_fields (p : Printer) (tk : String)
    (st : PState) (ts : Option Int) (kwargs : List (String × PVal))
    (htok : p.token = some tk) (hini : (p.is_initialised).1 = false) :
    (p.telemetry st ts kwargs).queue
      = p.queue ++ [QueueItem.tel { state := st, timestamp := ts,
                                    kwargs := [] }] := by
  unfold Printer.telemetry
  rw [htok]
  have h2 := is_initialised_of_fst_false hini
  cases hj : p.job_id <;> cases hd : p.download_current <;>
    simp [hj, hd, h2]

/-- Witness for C10: an uninitialised printer with a job id, a running
download and caller kwargs still queues a bare (state, timestamp)
sample. -/
theorem telemetry_uninitialised_drops_fields_witness :
    (({ pBase with
        sn := some "", job_id := some 42,
        download_current := some { progress := PVal.f 50,
                                   time_remaining := PVal.f 9,
                                   downloaded := PVal.i 1024 } } :
        Printer).telemetry .PRINTING (some 5)
          [("axis_x", PVal.f 3)]).queue
      = [QueueItem.tel { state := .PRINTING, timestamp := some 5,
                         kwargs := [] }] := by
  exact telemetry_uninitialised_drops_fields _ "tok" .PRINTING (some 5)
    [("axis_x", PVal.f 3)] rfl rfl

/-- The status-code handling block in one equation set: API flag becomes
`status < 400`, TOKEN flag is cleared exactly on 401, and the TRANSPORT
(HTTP) and INTERNET flags, the queue and the token are untouched. -/
theorem applyStatusFlags_spec (p : Printer) (s : Nat) :
    (applyStatusFlags p s).errs.api = decide (s < 400) ∧
    (applyStatusFlags p s).errs.token
      = (if s == 401 then false else p.errs.token) ∧
    (applyStatusFlags p s).errs.http = p.errs.http ∧
    (applyStatusFlags p s).errs.internet = p.errs.internet ∧
    (applyStatusFlags p s).queue = p.queue := by
  unfold applyStatusFlags
  by_cases h4 : s ≥ 400
  · by_cases h1 : s = 401 <;>
      simp [h4, h1, Nat.not_lt_of_ge h4]
  · have hlt : s < 400 := Nat.lt_of_not_ge h4
    have h1 : s ≠ 401 := by omega
    simp [h4, h1, hlt]

theorem event_cb_errs_http (p : Printer) (ev : EventKind) (src : Source)
    (ts : Option Int) (cid : Option Int) (kw : List (String × PVal)) :
    (p.event_cb ev src ts cid kw).errs.http = p.errs.http := by
  unfold Printer.event_cb Printer.is_initialised
  by_cases ht : p.token.isNone <;>
    by_cases hc : (truthyStr p.sn && truthyStr p.fingerprint
        && p.type_.isSome) = true <;>
      simp [ht, hc]

theorem parse_command_errs_http (p : Printer) (res : Response) :
    ((p.parse_command res).1).errs.http = p.errs.http := by
  unfold Printer.parse_command
  by_cases hs : (res.status_code == 200) = true
  · simp only [hs, if_true]
    cases hcid : parseCommandId res.command_id_header with
    | none => simp [event_cb_errs_http]
    | some cid =>
      by_cases hc : (truthyStr p.sn && truthyStr p.fingerprint
          && p.type_.isSome) = true
      · simp only [Printer.is_initialised, hc, if_true, Bool.not_true]
        cases hct : res.content_type with
        | none => simp [event_cb_errs_http]
        | some ct =>
          by_cases hjson : strStartsWith ct "application/json" = true <;>
            by_cases hgc : (ct == "text/x.gcode") = true <;>
              cases hbody : res.body_json <;>
                by_cases hck : p.check_state cid = true <;>
                  simp [hjson, hgc, hbody, hck, event_cb_errs_http]
      · simp [Printer.is_initialised, hc, event_cb_errs_http]
  · simp [hs]

/-- Claim C4: `Register(code)` carries a deadline equal to its creation
time plus the fixed 30-minute window (`CODE_TIMEOUT`); when the loop gets
a pending (202) response for a poll item, it re-enqueues the item exactly
once (at the back of the queue) if the deadline has not elapsed, and
drops it — the new queue is just the remainder — once the deadline has
passed. -/
theorem register_poll_deadline (code : String) (created now : Int)
    (p : Printer) (res : Response) (srv : String) (r : Register)
    (rest : List QueueItem)
    (hq : p.queue = QueueItem.reg r :: rest) (hs : p.server = some srv)
    (hst : res.status_code = 202) :
    (Register.make code created).timeout = created + 30 * 60 ∧
    (now < r.timeout →
      (p.loopStep now res).1.queue = rest ++ [QueueItem.reg r] ∧
      (p.loopStep now res).2.1 = [HttpCall.get (srv ++ "/p/register")]) ∧
    (r.timeout ≤ now → (p.loopStep now res).1.queue = rest) := by
  have hq202 : ∀ (q : Printer) (s : Nat),
      (applyStatusFlags q s).queue = q.queue :=
    fun q s => (applyStatusFlags_spec q s).2.2.2.2
  refine ⟨rfl, ?_, ?_⟩
  · intro hlt
    unfold Printer.loopStep
    rw [hq]
    simp only [hs, hst]
    have h200 : (202 == 200) = false := rfl
    simp [h200, hq202, hlt]
  · intro hge
    unfold Printer.loopStep
    rw [hq]
    simp only [hs, hst]
    have h200 : (202 == 200) = false := rfl
    have hnot : ¬ (r.timeout > now) := by omega
    simp [h200, hq202, hnot]

/-- Witness for C4: a poll created at time 0 has deadline 1800; with a
202 at `now = 1799` it is re-enqueued once, at `now = 1800` it is
dropped. -/
theorem register_poll_deadline_witness :
    (Register.make "tmpcode" 0).timeout = 0 + 30 * 60 ∧
    (({ pBase with
        queue := [QueueItem.reg (Register.make "tmpcode" 0)] } :
        Printer).loopStep 1799 res202).1.queue
      = [QueueItem.reg (Register.make "tmpcode" 0)] ∧
    (({ pBase with
        queue := [QueueItem.reg (Register.make "tmpcode" 0)] } :
        Printer).loopStep 1800 res202).1.queue = [] := by
  refine ⟨?_, ?_, ?_⟩
  · exact (register_poll_deadline "tmpcode" 0 1799
      { pBase with queue := [QueueItem.reg (Register.make "tmpcode" 0)] }
      res202 "http://srv" (Register.make "tmpcode" 0) [] rfl rfl rfl).1
  · exact ((register_poll_deadline "tmpcode" 0 1799
      { pBase with queue := [QueueItem.reg (Register.make "tmpcode" 0)] }
      res202 "http://srv" (Register.make "tmpcode" 0) [] rfl rfl rfl).2.1
      (by decide)).1
  · exact (register_poll_deadline "tmpcode" 0 1800
      { pBase with queue := [QueueItem.reg (Register.make "tmpcode" 0)] }
      res202 "http://srv" (Register.make "tmpcode" 0) [] rfl rfl rfl).2.2
      (by decide)

/-- An exchange actually completes in this iteration: telemetry and event
items need a token to be sent, a registration poll always sends, but on a
200 its `Token` header must be present (otherwise the `KeyError` path
skips the status-flag block). -/
def completesExchange (p : Printer) (item : QueueItem) (res : Response) :
    Prop :=
  match item with
  | .tel _ => p.token.isSome
  | .ev _ => p.token.isSome
  | .reg _ => res.status_code = 200 → res.token_header.isSome

/-- Claim C5: after every completed HTTP exchange in the loop, the API
flag ends up true exactly when the status is below 400; a 401 status
additionally clears the TOKEN flag; and the TRANSPORT (HTTP) flag is
never touched by this status-code handling. -/
theorem status_flags_after_exchange (p : Printer) (now : Int)
    (res : Response) (item : QueueItem) (rest : List QueueItem)
    (srv : String) (hq : p.queue = item :: rest)
    (hsrv : p.server = some srv) (hex : completesExchange p item res) :
    (p.loopStep now res).1.errs.api = decide (res.status_code < 400) ∧
    (res.status_code = 401 → (p.loopStep now res).1.errs.token = false) ∧
    (p.loopStep now res).1.errs.http = p.errs.http := by
  have hapi : ∀ (q : Printer) (s : Nat),
      (applyStatusFlags q s).errs.api = decide (s < 400) :=
    fun q s => (applyStatusFlags_spec q s).1
  have hhttp : ∀ (q : Printer) (s : Nat),
      (applyStatusFlags q s).errs.http = q.errs.http :=
    fun q s => (applyStatusFlags_spec q s).2.2.1
  have htok401 : ∀ q : Printer, (applyStatusFlags q 401).errs.token
      = false := by
    intro q
    have := (applyStatusFlags_spec q 401).2.1
    simpa using this
  have hph : ∀ q : Printer, ((q.parse_command res).1).errs.http
      = q.errs.http := fun q => parse_command_errs_http q res
  unfold Printer.loopStep
  rw [hq]
  cases item with
  | tel t =>
    have htok : p.token.isSome = true := hex
    refine ⟨?_, ?_, ?_⟩
    · simp [hsrv, htok, hapi]
    · intro h401
      simp [hsrv, htok, h401, htok401]
    · simp [hsrv, htok, hhttp, hph]
  | ev e =>
    have htok : p.token.isSome = true := hex
    refine ⟨?_, ?_, ?_⟩
    · simp [hsrv, htok, hapi]
    · intro h401
      simp [hsrv, htok, h401, htok401]
    · simp [hsrv, htok, hhttp]
  | reg r =>
    by_cases h200 : (res.status_code == 200) = true
    · have hst : res.status_code = 200 := by simpa using h200
      have htokh : res.token_header.isSome = true := hex hst
      obtain ⟨tok, htk⟩ := Option.isSome_iff_exists.mp htokh
      refine ⟨?_, ?_, ?_⟩
      · simp [hsrv, h200, htk, hapi]
      · intro h401
        rw [hst] at h401
        omega
      · simp [hsrv, h200, htk, hhttp]
    · by_cases hre : (res.status_code == 202 && decide (r.timeout > now))
          = true
      · refine ⟨?_, ?_, ?_⟩
        · simp [hsrv, h200, hre, hapi]
        · intro h401
          simp [hsrv, h200, hre, h401, htok401]
        · simp [hsrv, h200, hre, hhttp]
      · refine ⟨?_, ?_, ?_⟩
        · simp [hsrv, h200, hre, hapi]
        · intro h401
          simp [hsrv, h200, hre, h401, htok401]
        · simp [hsrv, h200, hre, hhttp]

/-- Witness for C5 at a concrete printer: a 401 response to an event item
sets the API flag false, clears the TOKEN flag, and leaves the TRANSPORT
flag true. -/
theorem status_flags_after_exchange_witness :
    ((({ pBase with queue := [QueueItem.ev e0] } : Printer).loopStep 0
        { res202 with status_code := 401 }).1.errs.api
      = decide ((401 : Nat) < 400)) ∧
    (({ pBase with queue := [QueueItem.ev e0] } : Printer).loopStep 0
        { res202 with status_code := 401 }).1.errs.token = false ∧
    (({ pBase with queue := [QueueItem.ev e0] } : Printer).loopStep 0
        { res202 with status_code := 401 }).1.errs.http = true := by
  have h := status_flags_after_exchange
    { pBase with queue := [QueueItem.ev e0] } 0
    { res202 with status_code := 401 } (QueueItem.ev e0) [] "http://srv"
    rfl rfl (by simp [completesExchange, pBase])
  exact ⟨h.1, h.2.1 rfl, h.2.2⟩

/-- Claim C1, counterexample: a registration poll item popped while the
token is `None` does perform a network request — the loop calls
`get_token`, a GET on the registration endpoint — so "every item popped
while `Printer.token` is `None` is dropped without any network request"
is false as stated. -/
theorem no_token_register_still_calls_http :
    (({ pBase with
        token := none,
        queue := [QueueItem.reg r0] } : Printer).loopStep 0 res202).2.1
      = [HttpCall.get "http://srv/p/register"] ∧
    (({ pBase with
        token := none,
        queue := [QueueItem.reg r0] } : Printer).loopStep 0 res202).2.1
      ≠ [] := by
  exact ⟨rfl, by decide⟩

/-- Claim C1 (amended): with no token set, every *event or telemetry*
item popped by the loop is dropped without any network request, and the
producer callbacks (`event_cb`, `telemetry`) enqueue nothing at all — so
a queue fed only through them causes zero HTTP calls.  Registration poll
items are the exception the code makes: they are sent without a token. -/
theorem no_token_drops_without_http (p : Printer) (now : Int)
    (res : Response) (h : p.token = none) :
    (∀ e rest, p.queue = QueueItem.ev e :: rest →
      p.loopStep now res = ({ p with queue := rest }, [], [])) ∧
    (∀ t rest, p.queue = QueueItem.tel t :: rest →
      p.loopStep now res = ({ p with queue := rest }, [], [])) ∧
    (∀ ev src ts cid kw, p.event_cb ev src ts cid kw = p) ∧
    (∀ st ts kw, p.telemetry st ts kw = p) := by
  have htok : p.token.isSome = false := by simp [h]
  refine ⟨?_, ?_, ?_, ?_⟩
  · intro e rest hq
    unfold Printer.loopStep
    rw [hq]
    cases hs : p.server <;> simp [hs, htok]
  · intro t rest hq
    unfold Printer.loopStep
    rw [hq]
    cases hs : p.server <;> simp [hs, htok]
  · intro ev src ts cid kw
    unfold Printer.event_cb
    simp [h]
  · intro st ts kw
    unfold Printer.telemetry
    simp [h]

/-- Witness for C1 (amended) at a concrete printer: with no token an
event item is dropped with no HTTP call, and `telemetry` refuses to
enqueue. -/
theorem no_token_drops_without_http_witness :
    ({ pBase with
       token := none,
       queue := [QueueItem.ev e0] } : Printer).loopStep 0 res202
      = ({ pBase with token := none, queue := [] }, [], []) ∧
    ({ pBase with token := none, queue := [QueueItem.ev e0] } :
        Printer).telemetry .READY none [("axis_x", PVal.f 3)]
      = { pBase with token := none, queue := [QueueItem.ev e0] } := by
  have h := no_token_drops_without_http
    { pBase with token := none, queue := [QueueItem.ev e0] } 0 res202 rfl
  exact ⟨h.1 e0 [] rfl, h.2.2.2 .READY none [("axis_x", PVal.f 3)]⟩

/-- The REJECTED event `parse_command` emits: fixed kind, given source,
no timestamp, optional command id, given kwargs. -/
def rejectedEv (src : Source) (cid : Option Int)
    (kw : List (String × PVal)) : Event :=
  { event := .REJECTED, source := src, timestamp := none,
    command_id := cid, kwargs := kw }

/-- Claim C2: on a 200 response, a missing or non-integer `Command-Id`
header makes `parse_command` emit a REJECTED event with reason "Invalid
Command-Id header" (and no accept call); with a valid id but an
uninitialised identity it emits a REJECTED event carrying that command
id and the fixed not-initialised message (and no accept call); in both
cases no content parsing happens — the outcome is independent of the
response's content type, body and remaining headers. -/
theorem parse_command_200_gating (p : Printer) (res : Response)
    (tk : String) (htok : p.token = some tk)
    (hst : res.status_code = 200) :
    (parseCommandId res.command_id_header = none →
      (p.parse_command res).2 = [] ∧
      ∃ kw, (p.parse_command res).1.queue
          = p.queue ++ [QueueItem.ev (rejectedEv .CONNECT none kw)] ∧
        ("reason", PVal.s "Invalid Command-Id header") ∈ kw) ∧
    (∀ cid, parseCommandId res.command_id_header = some cid →
      (p.is_initialised).1 = false →
      (p.parse_command res).2 = [] ∧
      ∃ kw, (p.parse_command res).1.queue
          = p.queue ++ [QueueItem.ev (rejectedEv .WUI (some cid) kw)] ∧
        ("reason", PVal.s NOT_INITIALISED_MSG) ∈ kw) ∧
    ((parseCommandId res.command_id_header = none
        ∨ (p.is_initialised).1 = false) →
      ∀ res2 : Response, res2.status_code = 200 →
        res2.command_id_header = res.command_id_header →
        p.parse_command res2 = p.parse_command res) := by
  refine ⟨?_, ?_, ?_⟩
  · intro hcid
    unfold Printer.parse_command
    simp only [hst, hcid]
    constructor
    · simp
    · obtain ⟨kw2, hq, hmem⟩ := event_cb_queue_shape p tk htok .REJECTED
        .CONNECT none none [("reason", PVal.s "Invalid Command-Id header")]
      exact ⟨kw2, by simpa using hq, hmem _ (by simp)⟩
  · intro cid hcid hini
    unfold Printer.parse_command
    simp only [hst, hcid]
    rw [is_initialised_of_fst_false hini]
    set p2 : Printer := { p with errs := { p.errs with api := false } }
      with hp2
    constructor
    · simp
    · obtain ⟨kw2, hq, hmem⟩ := event_cb_queue_shape p2 tk htok .REJECTED
        .WUI none (some cid) [("reason", PVal.s NOT_INITIALISED_MSG)]
      exact ⟨kw2, by simpa using hq, hmem _ (by simp)⟩
  · intro hgate res2 hst2 hsame
    unfold Printer.parse_command
    rw [hsame]
    simp only [hst, hst2]
    cases hcid : parseCommandId res.command_id_header with
    | none => simp
    | some cid =>
      rcases hgate with h | h
      · rw [hcid] at h
        exact absurd h (by simp)
      · rw [is_initialised_of_fst_false h]
        simp

/-- Witness for C2: a 200 response with no `Command-Id` header is
rejected with the fixed reason and produces no accept call. -/
theorem parse_command_200_gating_witness :
    (pBase.parse_command
        { res200json with command_id_header := none }).2 = [] ∧
    ∃ kw, (pBase.parse_command
        { res200json with command_id_header := none }).1.queue
        = pBase.queue ++ [QueueItem.ev (rejectedEv .CONNECT none kw)] ∧
      ("reason", PVal.s "Invalid Command-Id header") ∈ kw := by
  exact (parse_command_200_gating pBase
    { res200json with command_id_header := none } "tok" rfl rfl).1 rfl

/-- Claim C3: on a 200 response with a valid `Command-Id` and an
initialised identity, `parse_command` dispatches on the content type:
a type starting with `application/json` decodes `{command, args,
kwargs}` from the body and calls `accept` exactly when `check_state`
passes; exactly `text/x.gcode` calls `accept` (when `check_state`
passes) with the body text as the single GCODE argument and `force` set
to whether the `Force` header equals "1"; any other content type emits a
REJECTED event with the invalid-content-type reason and never calls
`accept`. -/
theorem parse_command_content_dispatch (p : Printer) (res : Response)
    (tk : String) (cid : Int) (ct : String)
    (htok : p.token = some tk) (hst : res.status_code = 200)
    (hcid : parseCommandId res.command_id_header = some cid)
    (hini : (p.is_initialised).1 = true)
    (hct : res.content_type = some ct) :
    (strStartsWith ct "application/json" = true →
      ∀ data, res.body_json = some data →
        (p.check_state cid = true →
          p.parse_command res
            = (p, [{ command_id := cid, command := data.command.getD "",
                     args := data.args, kwargs := data.kwargs,
                     force := false }])) ∧
        (p.check_state cid = false → p.parse_command res = (p, []))) ∧
    (ct = "text/x.gcode" →
      (p.check_state cid = true →
        p.parse_command res
          = (p, [{ command_id := cid, command := "GCODE",
                   args := some [PVal.s res.text], kwargs := none,
                   force := res.force_header == some "1" }])) ∧
      (p.check_state cid = false → p.parse_command res = (p, []))) ∧
    (strStartsWith ct "application/json" = false → ct ≠ "text/x.gcode" →
      (p.parse_command res).2 = [] ∧
      ∃ kw, (p.parse_command res).1.queue
          = p.queue ++ [QueueItem.ev (rejectedEv .CONNECT (some cid) kw)] ∧
        ("reason", PVal.s "Invalid command content type") ∈ kw) := by
  refine ⟨?_, ?_, ?_⟩
  · intro hjson data hbody
    constructor
    · intro hck
      unfold Printer.parse_command
      simp only [hst, hcid]
      rw [is_initialised_of_fst_true hini]
      simp [hct, hjson, hbody, hck]
    · intro hck
      unfold Printer.parse_command
      simp only [hst, hcid]
      rw [is_initialised_of_fst_true hini]
      simp [hct, hjson, hbody, hck]
  · intro hgc
    subst hgc
    have hjf : strStartsWith "text/x.gcode" "application/json"
        = false := by decide
    constructor
    · intro hck
      unfold Printer.parse_command
      simp only [hst, hcid]
      rw [is_initialised_of_fst_true hini]
      simp [hct, hjf, hck]
    · intro hck
      unfold Printer.parse_command
      simp only [hst, hcid]
      rw [is_initialised_of_fst_true hini]
      simp [hct, hjf, hck]
  · intro hjson hgc
    unfold Printer.parse_command
    simp only [hst, hcid]
    rw [is_initialised_of_fst_true hini]
    have hgc2 : (ct == "text/x.gcode") = false := by
      simpa using hgc
    constructor
    · simp [hct, hjson, hgc2]
    · obtain ⟨kw2, hq, hmem⟩ := event_cb_queue_shape p tk htok .REJECTED
        .CONNECT none (some cid)
        [("reason", PVal.s "Invalid command content type")]
      refine ⟨kw2, ?_, hmem _ (by simp)⟩
      simpa [hct, hjson, hgc2] using hq

/-- A 200 response carrying a GCODE command body with `Force: 1`. -/
def res200gcode : Response :=
  { status_code := 200, command_id_header := some "9",
    content_type := some "text/x.gcode", force_header := some "1",
    token_header := none, text := "G28 W", body_json := none }

/-- Witness for C3: the JSON command 7 is accepted on an idle slot; the
GCODE body is accepted as a single argument with force on; an
`image/png` content type is rejected with the fixed reason. -/
theorem parse_command_content_dispatch_witness :
    pBase.parse_command res200json
      = (pBase, [{ command_id := 7, command := "SEND_INFO", args := none,
                   kwargs := none, force := false }]) ∧
    pBase.parse_command res200gcode
      = (pBase, [{ command_id := 9, command := "GCODE",
                   args := some [PVal.s "G28 W"], kwargs := none,
                   force := true }]) ∧
    (pBase.parse_command
        { res200gcode with content_type := some "image/png" }).2 = [] := by
  refine ⟨?_, ?_, ?_⟩
  · exact ((parse_command_content_dispatch pBase res200json "tok" 7
      "application/json" rfl rfl (by decide) rfl rfl).1 (by decide)
      { command := some "SEND_INFO", args := none, kwargs := none }
      rfl).1 rfl
  · exact ((parse_command_content_dispatch pBase res200gcode "tok" 9
      "text/x.gcode" rfl rfl (by decide) rfl rfl).2.1 rfl).1 rfl
  · exact ((parse_command_content_dispatch pBase
      { res200gcode with content_type := some "image/png" } "tok" 9
      "image/png" rfl rfl (by decide) rfl rfl).2.2 (by decide)
      (by decide)).1

/-- Claim C7: in the dispatch loop a telemetry POST's response is always
passed to command-response parsing — the iteration is exactly
`parse_command` on the popped state followed by the status-flag block,
its accept calls included in the trace — while an event POST's response
is never parsed for commands: the iteration produces no accept calls and
nothing beyond the status-flag update. -/
theorem telemetry_response_parsed_event_not (p : Printer) (now : Int)
    (res : Response) (srv : String) (hsrv : p.server = some srv)
    (htok : p.token.isSome = true) :
    (∀ t rest, p.queue = QueueItem.tel t :: rest →
      p.loopStep now res
        = (applyStatusFlags
            (({ p with queue := rest } : Printer).parse_command res).1
            res.status_code,
           [HttpCall.post (srv ++ "/p/telemetry")],
           (({ p with queue := rest } : Printer).parse_command res).2)) ∧
    (∀ e rest, p.queue = QueueItem.ev e :: rest →
      p.loopStep now res
        = (applyStatusFlags ({ p with queue := rest } : Printer)
             res.status_code,
           [HttpCall.post (srv ++ "/p/events")], [])) := by
  constructor
  · intro t rest hq
    unfold Printer.loopStep
    rw [hq]
    simp [hsrv, htok]
  · intro e rest hq
    unfold Printer.loopStep
    rw [hq]
    simp [hsrv, htok]

/-- Witness for C7: with a command-bearing 200 response, a telemetry item
yields the parse result (including its accept call) while an event item
yields none. -/
theorem telemetry_response_parsed_event_not_witness :
    ({ pBase with queue := [QueueItem.tel t0] } : Printer).loopStep 0
        res200json
      = (applyStatusFlags
          (({ pBase with queue := [] } : Printer).parse_command res200json).1
          res200json.status_code,
         [HttpCall.post ("http://srv" ++ "/p/telemetry")],
         (({ pBase with queue := [] } : Printer).parse_command
             res200json).2) ∧
    ({ pBase with queue := [QueueItem.ev e0] } : Printer).loopStep 0
        res200json
      = (applyStatusFlags ({ pBase with queue := [] } : Printer)
           res200json.status_code,
         [HttpCall.post ("http://srv" ++ "/p/events")], []) := by
  constructor
  · exact (telemetry_response_parsed_event_not
      { pBase with queue := [QueueItem.tel t0] } 0 res200json "http://srv"
      rfl rfl).1 t0 [] rfl
  · exact (telemetry_response_parsed_event_not
      { pBase with queue := [QueueItem.ev e0] } 0 res200json "http://srv"
      rfl rfl).2 e0 [] rfl

end PrusaConnect
